import Mathlib

/-!
Verification of `tensorflow_probability/python/distributions/sinh_arcsinh.py`
(`SinhArcsinh` distribution class) against its specification.

The file shallowly embeds the constructor, batch-shape methods, parameter
properties and accessors of the `SinhArcsinh` class.  Collaborator components
(bijectors, the base `Normal` distribution, dtype/tensor utilities) are not
part of the repository; where a claim depends on their behaviour they are
modelled from the spec, each such definition carrying a doc comment that says
so.
-/

/-- Floating-point dtypes relevant here (`tf.float32` is the constructor's
default dtype). -/
inductive Dtype where
  | float32
  | float64
deriving DecidableEq, Repr

/-- A tensor, abstracted to what the claims need: its (static) shape, its
dtype, and a representative scalar value (all tensor operations used by this
module act elementwise, so scalar semantics is faithful). -/
structure Tensor where
  val : ℝ
  dtype : Dtype
  shape : List Nat

/-- A constructor argument: a Python number or tensor-like value.  A plain
Python float carries no dtype and has scalar shape `[]`. -/
structure ParamIn where
  val : ℝ
  dtype : Option Dtype
  shape : List Nat

/-- Modelled from the spec: `dtype_util.common_dtype` (not in the repository).
Parameters "must all have the same `dtype`" (constructor docstring); arguments
without a dtype (Python numbers, `None`) impose nothing; when no argument
carries a dtype the provided default (`tf.float32`) is used; a genuine
mismatch is an error (`none`). -/
def common_dtype (dts : List (Option Dtype)) (default : Dtype) : Option Dtype :=
  match dts.filterMap id with
  | [] => some default
  | d :: rest => if rest.all (fun e => e = d) then some d else none

/-- Modelled from the spec: `tensor_util.convert_nonref_to_tensor` (not in the
repository); converts the argument to a deferred tensor of the requested
dtype, keeping its shape and value. -/
def convert_nonref_to_tensor (p : ParamIn) (dtype : Dtype) : Tensor :=
  { val := p.val, dtype := dtype, shape := p.shape }

/-- Modelled from the spec: `prefer_static_rank` (not in the repository) is
the static rank, i.e. the length of the shape. -/
def prefer_static_rank (t : Tensor) : Nat :=
  t.shape.length

/-- Modelled from the spec: one dimension of NumPy/TF broadcasting — equal
dimensions broadcast to themselves, a dimension `1` stretches to the other,
anything else is an error. -/
def broadcastDim (a b : Nat) : Option Nat :=
  if a = b then some a
  else if a = 1 then some b
  else if b = 1 then some a
  else none

/-- Broadcasting on reversed (right-aligned) shapes. -/
def broadcastRev : List Nat → List Nat → Option (List Nat)
  | [], ys => some ys
  | x :: xs, [] => some (x :: xs)
  | x :: xs, y :: ys => do
      let d ← broadcastDim x y
      let rest ← broadcastRev xs ys
      pure (d :: rest)

/-- Modelled from the spec: `tf.broadcast_static_shape` (not in the
repository) — NumPy broadcasting of two shapes, right-aligned; `none` when the
shapes are incompatible. -/
def broadcastShape (xs ys : List Nat) : Option (List Nat) :=
  (broadcastRev xs.reverse ys.reverse).map List.reverse

/-- The broadcast of a list of shapes, i.e. the spec's "broadcast of the four
parameter shapes": pairwise broadcasting folded over the list. -/
def broadcastAll (ss : List (List Nat)) : Option (List Nat) :=
  match ss with
  | [] => some []
  | s :: rest => rest.foldl (fun acc u => acc.bind (fun a => broadcastShape a u)) (some s)

/-- A graph-inserted validation assertion, identified by the parameter it
constrains. -/
inductive Assertion where
  | positive (param : String)
deriving DecidableEq, Repr

/-- The bijectors this module builds (`tfp.bijectors` is not in the
repository; constructors mirror the ones imported by the module, each with
the `validate_args` flag its Python constructor takes; `softplus` carries its
`low` bound). -/
inductive Bijector where
  | identity (validate_args : Bool)
  | sinhArcsinhBij (skewness tailweight : Tensor) (validate_args : Bool)
  | shift (t : Tensor) (validate_args : Bool)
  | scale (s : Tensor) (validate_args : Bool)
  | chain (bs : List Bijector) (validate_args : Bool)
  | softplus (low : ℝ)

/-- Modelled from the spec and the module's own comment (lines 160-164): the
forward map of each bijector.  The sinh-arcsinh bijector `F` is
`F(Z) := Sinh((Arcsinh(Z) + skewness) * tailweight) * (2 / F_0(2))` with
`F_0(Z) := Sinh(Arcsinh(Z) * tailweight)`. -/
noncomputable def sasF (skewness tailweight x : ℝ) : ℝ :=
  Real.sinh ((Real.arsinh x + skewness) * tailweight) *
    (2 / Real.sinh (Real.arsinh 2 * tailweight))

mutual

/-- Modelled from the spec: scalar forward semantics of each bijector;
`chain [b1, ..., bn]` applies `bn` first and `b1` last (TFP `Chain` order). -/
noncomputable def Bijector.forward : Bijector → ℝ → ℝ
  | .identity _ => fun x => x
  | .sinhArcsinhBij s t _ => fun x => sasF s.val t.val x
  | .shift t _ => fun x => t.val + x
  | .scale s _ => fun x => s.val * x
  | .chain bs _ => Bijector.forwardList bs
  | .softplus low => fun x => low + Real.log (1 + Real.exp x)

/-- Forward of a chain, rightmost bijector applied first. -/
noncomputable def Bijector.forwardList : List Bijector → ℝ → ℝ
  | [] => fun x => x
  | b :: rest => fun x => b.forward (Bijector.forwardList rest x)

end

mutual

/-- Modelled from the spec: the positivity assertions a bijector inserts into
the computation graph when ITS `validate_args` flag is set — the sinh-arcsinh
bijector asserts `tailweight > 0`, the scale bijector asserts positivity of
its scale; shift and identity assert nothing. -/
def Bijector.graphAssertions : Bijector → List Assertion
  | .identity _ => []
  | .sinhArcsinhBij _ _ v => if v then [Assertion.positive "tailweight"] else []
  | .shift _ _ => []
  | .scale _ v => if v then [Assertion.positive "scale"] else []
  | .chain bs _ => Bijector.graphAssertionsList bs
  | .softplus _ => []

/-- Assertions contributed by every member of a chain. -/
def Bijector.graphAssertionsList : List Bijector → List Assertion
  | [] => []
  | b :: rest => b.graphAssertions ++ Bijector.graphAssertionsList rest

end

/-- Base distributions: the default standard `Normal` (with its `loc` and
`scale` tensors and flags, as constructed at lines 173-177), or an opaque
user-supplied distribution with a given batch shape. -/
inductive BaseDist where
  | normal (loc scale : Tensor) (allow_nan_stats validate_args : Bool)
  | other (batch_shape : List Nat)

/-- Modelled from the spec: the batch shape of a base distribution — for
`Normal` the broadcast of its parameter shapes, for an opaque distribution
its given batch shape. -/
def BaseDist.batchShape : BaseDist → Option (List Nat)
  | .normal l s _ _ => broadcastShape l.shape s.shape
  | .other b => some b

/-- Modelled from the spec: assertions the base distribution inserts when its
own `validate_args` flag is set (`Normal` validates positivity of its own
scale parameter). -/
def BaseDist.graphAssertions : BaseDist → List Assertion
  | .normal _ _ _ v => if v then [Assertion.positive "base_normal.scale"] else []
  | .other _ => []

/-- The state of a constructed `SinhArcsinh` distribution: the four stored
parameter tensors (the read-only accessors `loc`, `scale`, `skewness`,
`tailweight` are exactly these fields), the base distribution and the bijector
handed to the transformed-distribution superclass, and the `validate_args` flag. -/
structure SinhArcsinh where
  loc : Tensor
  scale : Tensor
  skewness : Tensor
  tailweight : Tensor
  distribution : BaseDist
  bijector : Bijector
  validate_args : Bool

/-- The rank used for the default base distribution (line 166-169):
`tf.reduce_max` of the static ranks of skewness, tailweight, loc, scale. -/
def SinhArcsinh.defaultBaseRank (skewness tailweight loc scale : Tensor) : Nat :=
  List.foldl Nat.max 0
    [prefer_static_rank skewness, prefer_static_rank tailweight,
     prefer_static_rank loc, prefer_static_rank scale]

/-- `SinhArcsinh.__init__` (lines 103-194).  Follows the source: compute the
common dtype (default `tf.float32`), convert `loc` and `scale`, default
`tailweight` to `1.` and `skewness` to `0.` when `None`, convert both; when
`distribution` is `None` build `Normal(loc=tf.zeros(tf.ones(batch_rank)),
scale=tf.ones([]))`; build the sinh-arcsinh bijector `f` with
`validate_args`, the affine `Shift(loc)(Scale(scale))` without it, and hand
`Chain([affine, f])` to the superclass.  `none` models the dtype-mismatch
error raised by `common_dtype`. -/
def SinhArcsinh.make (loc scale : ParamIn) (skewness tailweight : Option ParamIn)
    (distribution : Option BaseDist) (validate_args : Bool) (allow_nan_stats : Bool) :
    Option SinhArcsinh :=
  match common_dtype
      [loc.dtype, scale.dtype, skewness.bind (fun p => p.dtype),
       tailweight.bind (fun p => p.dtype)] Dtype.float32 with
  | none => none
  | some dtype =>
    let locT := convert_nonref_to_tensor loc dtype
    let scaleT := convert_nonref_to_tensor scale dtype
    let tailweightP := tailweight.getD { val := 1, dtype := none, shape := [] }
    let skewnessP := skewness.getD { val := 0, dtype := none, shape := [] }
    let tailweightT := convert_nonref_to_tensor tailweightP dtype
    let skewnessT := convert_nonref_to_tensor skewnessP dtype
    let dist :=
      match distribution with
      | some d => d
      | none =>
        let batch_rank := SinhArcsinh.defaultBaseRank skewnessT tailweightT locT scaleT
        BaseDist.normal
          { val := 0, dtype := dtype, shape := List.replicate batch_rank 1 }
          { val := 1, dtype := dtype, shape := [] }
          allow_nan_stats validate_args
    let f := Bijector.sinhArcsinhBij skewnessT tailweightT validate_args
    let affine := Bijector.chain [Bijector.shift locT false, Bijector.scale scaleT false] false
    let bijector := Bijector.chain [affine, f] false
    some { loc := locT, scale := scaleT, skewness := skewnessT,
           tailweight := tailweightT, distribution := dist,
           bijector := bijector, validate_args := validate_args }

/-- `SinhArcsinh._batch_shape` (lines 230-235): start from `skewness.shape`
and fold `tf.broadcast_static_shape` over tailweight, loc, scale. -/
def SinhArcsinh.batchShape (d : SinhArcsinh) : Option (List Nat) :=
  [d.tailweight, d.loc, d.scale].foldl
    (fun acc t => acc.bind (fun s => broadcastShape s t.shape))
    (some d.skewness.shape)

/-- Modelled from the spec: `distribution_util.get_broadcast_shape` (not in
the repository) — the broadcast of the shapes of all given tensors. -/
def get_broadcast_shape (ts : List Tensor) : Option (List Nat) :=
  broadcastAll (ts.map (fun t => t.shape))

/-- `SinhArcsinh._batch_shape_tensor` (lines 237-239). -/
def SinhArcsinh.batchShapeTensor (d : SinhArcsinh) : Option (List Nat) :=
  get_broadcast_shape [d.skewness, d.tailweight, d.loc, d.scale]

/-- `SinhArcsinh._default_event_space_bijector` (lines 241-243):
`Identity(validate_args=self.validate_args)`. -/
def SinhArcsinh.defaultEventSpaceBijector (d : SinhArcsinh) : Bijector :=
  Bijector.identity d.validate_args

/-- All validation assertions present in the constructed computation graph:
those of the transform chain plus those of the base distribution. -/
def SinhArcsinh.graphAssertions (d : SinhArcsinh) : List Assertion :=
  d.bijector.graphAssertions ++ d.distribution.graphAssertions

/-- Modelled from the spec: `dtype_util.eps` (not in the repository) — the
machine epsilon of the dtype. -/
noncomputable def Dtype.eps : Dtype → ℝ
  | .float32 => 1 / 2 ^ 23
  | .float64 => 1 / 2 ^ 52

/-- Per-parameter metadata: only the default constraining bijector matters to
the claims. -/
structure ParameterProperties where
  default_constraining_bijector : Option Bijector

/-- `SinhArcsinh._parameter_properties` (lines 196-206): `loc` and `skewness`
unconstrained, `scale` and `tailweight` constrained by
`Softplus(low=dtype_util.eps(dtype))`. -/
noncomputable def SinhArcsinh.parameter_properties (dtype : Dtype) : List (String × ParameterProperties) :=
  [("loc", { default_constraining_bijector := none }),
   ("scale", { default_constraining_bijector := some (Bijector.softplus dtype.eps) }),
   ("skewness", { default_constraining_bijector := none }),
   ("tailweight", { default_constraining_bijector := some (Bijector.softplus dtype.eps) })]

/-- A concrete constructed distribution: `loc=3.`, `scale=2.`, explicit
`skewness=0.`, `tailweight=1.`, user-supplied base, `validate_args=False`. -/
def sampleSAS : SinhArcsinh :=
  { loc := ⟨3, .float32, []⟩, scale := ⟨2, .float32, []⟩,
    skewness := ⟨0, .float32, []⟩, tailweight := ⟨1, .float32, []⟩,
    distribution := BaseDist.other [],
    bijector := Bijector.chain
      [Bijector.chain [Bijector.shift ⟨3, .float32, []⟩ false,
          Bijector.scale ⟨2, .float32, []⟩ false] false,
       Bijector.sinhArcsinhBij ⟨0, .float32, []⟩ ⟨1, .float32, []⟩ false] false,
    validate_args := false }

/-- A concrete constructed distribution with the default base: `loc` of shape
`[2]`, the other parameters scalar, so the default normal's loc has shape
`[1]`. -/
def sampleDefaultBase : SinhArcsinh :=
  { loc := ⟨0, .float32, [2]⟩, scale := ⟨1, .float32, []⟩,
    skewness := ⟨0, .float32, []⟩, tailweight := ⟨1, .float32, []⟩,
    distribution := BaseDist.normal ⟨0, .float32, [1]⟩ ⟨1, .float32, []⟩ true false,
    bijector := Bijector.chain
      [Bijector.chain [Bijector.shift ⟨0, .float32, [2]⟩ false,
          Bijector.scale ⟨1, .float32, []⟩ false] false,
       Bijector.sinhArcsinhBij ⟨0, .float32, []⟩ ⟨1, .float32, []⟩ false] false,
    validate_args := false }

/-- A concrete constructed distribution with `validate_args=True` and a
non-positive `scale=-2.`, default base. -/
def sampleValidated : SinhArcsinh :=
  { loc := ⟨3, .float32, []⟩, scale := ⟨-2, .float32, []⟩,
    skewness := ⟨0, .float32, []⟩, tailweight := ⟨1, .float32, []⟩,
    distribution := BaseDist.normal ⟨0, .float32, []⟩ ⟨1, .float32, []⟩ true true,
    bijector := Bijector.chain
      [Bijector.chain [Bijector.shift ⟨3, .float32, []⟩ false,
          Bijector.scale ⟨-2, .float32, []⟩ false] false,
       Bijector.sinhArcsinhBij ⟨0, .float32, []⟩ ⟨1, .float32, []⟩ true] false,
    validate_args := true }

/-- C1: for every base distribution and parameters `loc` and `scale`,
constructing `SinhArcsinh` with `skewness = 0` and `tailweight = 1` yields a
distribution equal to the plain affine transform (shift by `loc` after
scaling by `scale`) of that base distribution: the base is unchanged and the
forward transform is `z ↦ loc + scale * z`. -/
theorem sas_skew_zero_tail_one_is_affine
    (loc scale skew tail : ParamIn) (base : BaseDist) (v a : Bool)
    (d : SinhArcsinh) (z : ℝ)
    (hs : skew.val = 0) (ht : tail.val = 1)
    (h : SinhArcsinh.make loc scale (some skew) (some tail) (some base) v a = some d) :
    d.distribution = base ∧ d.bijector.forward z = loc.val + scale.val * z := by
  unfold SinhArcsinh.make at h
  cases hdt : common_dtype [loc.dtype, scale.dtype,
      Option.bind (some skew) (fun p => p.dtype),
      Option.bind (some tail) (fun p => p.dtype)] Dtype.float32 with
  | none => rw [hdt] at h; exact absurd h (by simp)
  | some dt =>
    rw [hdt] at h
    injection h with h
    subst h
    refine ⟨rfl, ?_⟩
    simp [Bijector.forward, Bijector.forwardList, convert_nonref_to_tensor, sasF, hs, ht,
      Real.sinh_arsinh]

/-- Witness for C1: `loc=3.`, `scale=2.`, `skewness=0.`, `tailweight=1.`,
base `other []`, evaluated at `z = 5`. -/
theorem sas_skew_zero_tail_one_is_affine_witness :
    SinhArcsinh.make ⟨3, none, []⟩ ⟨2, none, []⟩ (some ⟨0, none, []⟩) (some ⟨1, none, []⟩)
        (some (BaseDist.other [])) false true = some sampleSAS
    ∧ sampleSAS.distribution = BaseDist.other []
    ∧ sampleSAS.bijector.forward 5 = 3 + 2 * 5 := by
  have h := sas_skew_zero_tail_one_is_affine ⟨3, none, []⟩ ⟨2, none, []⟩ ⟨0, none, []⟩
    ⟨1, none, []⟩ (BaseDist.other []) false true sampleSAS 5 rfl rfl rfl
  exact ⟨rfl, h.1, h.2⟩

/-- C2: for every `SinhArcsinh`, both the static batch shape (`_batch_shape`)
and the dynamic one (`_batch_shape_tensor`) equal the broadcast of the shapes
of the four parameters skewness, tailweight, loc, scale. -/
theorem sas_batch_shape_is_broadcast_of_params (d : SinhArcsinh) :
    d.batchShape
        = broadcastAll [d.skewness.shape, d.tailweight.shape, d.loc.shape, d.scale.shape]
    ∧ d.batchShapeTensor
        = broadcastAll [d.skewness.shape, d.tailweight.shape, d.loc.shape, d.scale.shape] :=
  ⟨rfl, rfl⟩

/-- C3 counterexample: with `loc` of shape `[2]` and the other three
parameters scalar, the default base normal has batch shape `[1]`, not the
combined (broadcast) parameter shape `[2]` — so the base is NOT "a standard
normal broadcast to the combined shape of the four parameters". -/
theorem sas_default_base_shape_counterexample :
    (SinhArcsinh.make ⟨0, none, [2]⟩ ⟨1, none, []⟩ none none none false true).map
        (fun d => d.distribution.batchShape) = some (some [1])
    ∧ broadcastAll [[2], [], [], []] = some [2]
    ∧ some (some ([1] : List Nat)) ≠ some (some ([2] : List Nat)) :=
  ⟨rfl, rfl, by decide⟩

/-- C3 amended: whenever `distribution` is omitted, the base distribution is
a standard normal (`loc = 0`, `scale = 1`) whose `loc` has shape all-ones of
length the maximum static rank of the four parameters — it broadcasts against
the parameters, but its own batch shape is not in general the combined
parameter shape. -/
theorem sas_default_base_standard_normal_allones
    (loc scale : ParamIn) (skew tail : Option ParamIn) (v a : Bool)
    (d : SinhArcsinh) (dt : Dtype)
    (hdt : common_dtype [loc.dtype, scale.dtype, Option.bind skew (fun p => p.dtype),
        Option.bind tail (fun p => p.dtype)] Dtype.float32 = some dt)
    (h : SinhArcsinh.make loc scale skew tail none v a = some d) :
    d.distribution = BaseDist.normal
      ⟨0, dt, List.replicate
        (SinhArcsinh.defaultBaseRank d.skewness d.tailweight d.loc d.scale) 1⟩
      ⟨1, dt, []⟩ a v := by
  unfold SinhArcsinh.make at h
  rw [hdt] at h
  injection h with h
  subst h
  rfl

/-- Witness for the amended C3, at `loc` of shape `[2]` and scalar others. -/
theorem sas_default_base_standard_normal_allones_witness :
    SinhArcsinh.make ⟨0, none, [2]⟩ ⟨1, none, []⟩ none none none false true
        = some sampleDefaultBase
    ∧ sampleDefaultBase.distribution
        = BaseDist.normal ⟨0, Dtype.float32, [1]⟩ ⟨1, Dtype.float32, []⟩ true false := by
  have h := sas_default_base_standard_normal_allones ⟨0, none, [2]⟩ ⟨1, none, []⟩
    none none false true sampleDefaultBase Dtype.float32 rfl rfl
  exact ⟨rfl, h⟩

/-- C4 counterexample: with `validate_args=True` and the invalid value
`scale = -2.`, the graph assertions are exactly the tailweight-positivity
assertion (from the sinh-arcsinh bijector) and the default base normal's own
scale assertion — no positivity assertion for the distribution's `scale` is
inserted, because the `Shift`/`Scale` bijectors are built without
`validate_args` (lines 184-187). -/
theorem sas_validate_scale_assertion_counterexample :
    (SinhArcsinh.make ⟨3, none, []⟩ ⟨-2, none, []⟩ none none none true true).map
        (fun d => d.graphAssertions)
      = some [Assertion.positive "tailweight", Assertion.positive "base_normal.scale"]
    ∧ Assertion.positive "scale"
        ∉ [Assertion.positive "tailweight", Assertion.positive "base_normal.scale"] :=
  ⟨rfl, by decide⟩

/-- C4 amended: when `validate_args` is `True` a positivity assertion for
`tailweight` is inserted (via the sinh-arcsinh bijector) but no positivity
assertion for `scale` (the `Shift` and `Scale` bijectors are constructed
without `validate_args`); when `validate_args` is `False`, construction
succeeds for every parameter value and inserts no assertions at all. -/
theorem sas_validation_assertions_amended
    (loc scale : ParamIn) (skew tail : Option ParamIn) (a : Bool)
    (dv : SinhArcsinh) (dt : Dtype)
    (hdt : common_dtype [loc.dtype, scale.dtype, Option.bind skew (fun p => p.dtype),
        Option.bind tail (fun p => p.dtype)] Dtype.float32 = some dt)
    (hv : SinhArcsinh.make loc scale skew tail none true a = some dv) :
    Assertion.positive "tailweight" ∈ dv.graphAssertions
    ∧ Assertion.positive "scale" ∉ dv.graphAssertions
    ∧ (SinhArcsinh.make loc scale skew tail none false a).map
        (fun d => d.graphAssertions) = some [] := by
  unfold SinhArcsinh.make at hv ⊢
  rw [hdt] at hv ⊢
  injection hv with hv
  subst hv
  refine ⟨?_, ?_, rfl⟩
  · simp [SinhArcsinh.graphAssertions, Bijector.graphAssertions,
      Bijector.graphAssertionsList, BaseDist.graphAssertions]
  · simp [SinhArcsinh.graphAssertions, Bijector.graphAssertions,
      Bijector.graphAssertionsList, BaseDist.graphAssertions]

/-- Witness for the amended C4: `loc=3.`, `scale=-2.`, defaults, validated. -/
theorem sas_validation_assertions_amended_witness :
    SinhArcsinh.make ⟨3, none, []⟩ ⟨-2, none, []⟩ none none none true true
        = some sampleValidated
    ∧ Assertion.positive "tailweight" ∈ sampleValidated.graphAssertions
    ∧ Assertion.positive "scale" ∉ sampleValidated.graphAssertions
    ∧ (SinhArcsinh.make ⟨3, none, []⟩ ⟨-2, none, []⟩ none none none false true).map
        (fun d => d.graphAssertions) = some [] := by
  have h := sas_validation_assertions_amended ⟨3, none, []⟩ ⟨-2, none, []⟩
    none none true sampleValidated Dtype.float32 rfl rfl
  exact ⟨rfl, h.1, h.2.1, h.2.2⟩

/-- C5: the transform handed to the transformed-distribution superclass is
`Chain([affine, f])` with `affine = Shift(loc) ∘ Scale(scale)` and `f` the
sinh-arcsinh bijector — so the sinh-arcsinh reshaping is applied first and
the affine map `z ↦ loc + scale·z` second. -/
theorem sas_bijector_sas_then_affine
    (loc scale : ParamIn) (skew tail : Option ParamIn) (dist : Option BaseDist)
    (v a : Bool) (d : SinhArcsinh) (z : ℝ)
    (h : SinhArcsinh.make loc scale skew tail dist v a = some d) :
    d.bijector = Bijector.chain
        [Bijector.chain [Bijector.shift d.loc false, Bijector.scale d.scale false] false,
         Bijector.sinhArcsinhBij d.skewness d.tailweight v] false
    ∧ d.bijector.forward z
        = d.loc.val + d.scale.val * sasF d.skewness.val d.tailweight.val z := by
  unfold SinhArcsinh.make at h
  cases hdt : common_dtype [loc.dtype, scale.dtype, Option.bind skew (fun p => p.dtype),
      Option.bind tail (fun p => p.dtype)] Dtype.float32 with
  | none => rw [hdt] at h; exact absurd h (by simp)
  | some dt =>
    rw [hdt] at h
    injection h with h
    subst h
    exact ⟨rfl, by simp [Bijector.forward, Bijector.forwardList]⟩

/-- Witness for C5 at concrete inputs, `z = 7`. -/
theorem sas_bijector_sas_then_affine_witness :
    SinhArcsinh.make ⟨3, none, []⟩ ⟨2, none, []⟩ (some ⟨0, none, []⟩) (some ⟨1, none, []⟩)
        (some (BaseDist.other [])) false true = some sampleSAS
    ∧ sampleSAS.bijector = Bijector.chain
        [Bijector.chain
          [Bijector.shift sampleSAS.loc false, Bijector.scale sampleSAS.scale false] false,
         Bijector.sinhArcsinhBij sampleSAS.skewness sampleSAS.tailweight false] false
    ∧ sampleSAS.bijector.forward 7
        = sampleSAS.loc.val + sampleSAS.scale.val
            * sasF sampleSAS.skewness.val sampleSAS.tailweight.val 7 := by
  have h := sas_bijector_sas_then_affine ⟨3, none, []⟩ ⟨2, none, []⟩ (some ⟨0, none, []⟩)
    (some ⟨1, none, []⟩) (some (BaseDist.other [])) false true sampleSAS 7 rfl
  exact ⟨rfl, h.1, h.2⟩

/-- C6: the parameter-properties metadata gives `scale` and `tailweight` the
default constraining bijector `Softplus(low = eps(dtype))` (whose forward
image is positive), none for `loc` and `skewness`; and the constructor itself
performs no positivity check — it succeeds for arbitrary parameter values. -/
theorem sas_parameter_properties_softplus_eps
    (dtp : Dtype) (x : ℝ)
    (loc scale : ParamIn) (skew tail : Option ParamIn) (dist : Option BaseDist)
    (v a : Bool) (dt : Dtype)
    (hdt : common_dtype [loc.dtype, scale.dtype, Option.bind skew (fun p => p.dtype),
        Option.bind tail (fun p => p.dtype)] Dtype.float32 = some dt) :
    List.lookup "scale" (SinhArcsinh.parameter_properties dtp)
        = some { default_constraining_bijector := some (Bijector.softplus dtp.eps) }
    ∧ List.lookup "tailweight" (SinhArcsinh.parameter_properties dtp)
        = some { default_constraining_bijector := some (Bijector.softplus dtp.eps) }
    ∧ List.lookup "loc" (SinhArcsinh.parameter_properties dtp)
        = some { default_constraining_bijector := none }
    ∧ List.lookup "skewness" (SinhArcsinh.parameter_properties dtp)
        = some { default_constraining_bijector := none }
    ∧ 0 < dtp.eps
    ∧ 0 < (Bijector.softplus dtp.eps).forward x
    ∧ (SinhArcsinh.make loc scale skew tail dist v a).isSome = true := by
  have heps : 0 < dtp.eps := by cases dtp <;> norm_num [Dtype.eps]
  have hlog : 0 < Real.log (1 + Real.exp x) :=
    Real.log_pos (by linarith [Real.exp_pos x])
  refine ⟨rfl, rfl, rfl, rfl, heps, ?_, ?_⟩
  · show 0 < dtp.eps + Real.log (1 + Real.exp x)
    linarith
  · unfold SinhArcsinh.make
    rw [hdt]
    rfl

/-- Witness for C6 at `dtype = float32`, `x = 0`, concrete constructor
arguments (with a non-positive `scale = -2.`, still accepted). -/
theorem sas_parameter_properties_softplus_eps_witness :
    List.lookup "scale" (SinhArcsinh.parameter_properties Dtype.float32)
        = some { default_constraining_bijector := some (Bijector.softplus Dtype.float32.eps) }
    ∧ List.lookup "tailweight" (SinhArcsinh.parameter_properties Dtype.float32)
        = some { default_constraining_bijector := some (Bijector.softplus Dtype.float32.eps) }
    ∧ List.lookup "loc" (SinhArcsinh.parameter_properties Dtype.float32)
        = some { default_constraining_bijector := none }
    ∧ List.lookup "skewness" (SinhArcsinh.parameter_properties Dtype.float32)
        = some { default_constraining_bijector := none }
    ∧ 0 < Dtype.float32.eps
    ∧ 0 < (Bijector.softplus Dtype.float32.eps).forward 0
    ∧ (SinhArcsinh.make ⟨3, none, []⟩ ⟨-2, none, []⟩ none none none false true).isSome
        = true :=
  sas_parameter_properties_softplus_eps Dtype.float32 0 ⟨3, none, []⟩ ⟨-2, none, []⟩
    none none none false true Dtype.float32 rfl

/-- C7: the stored parameters are exactly the deferred tensor references
created at construction — each accessor (`loc`, `scale`, `skewness`,
`tailweight` are the structure's fields) returns the `convert_nonref_to_tensor`
result of the corresponding argument, and no operation of the (purely
functional) embedding reassigns them. -/
theorem sas_params_stored_unmutated
    (loc scale skew tail : ParamIn) (dist : Option BaseDist) (v a : Bool)
    (d : SinhArcsinh) (dt : Dtype)
    (hdt : common_dtype [loc.dtype, scale.dtype, Option.bind (some skew) (fun p => p.dtype),
        Option.bind (some tail) (fun p => p.dtype)] Dtype.float32 = some dt)
    (h : SinhArcsinh.make loc scale (some skew) (some tail) dist v a = some d) :
    d.loc = convert_nonref_to_tensor loc dt
    ∧ d.scale = convert_nonref_to_tensor scale dt
    ∧ d.skewness = convert_nonref_to_tensor skew dt
    ∧ d.tailweight = convert_nonref_to_tensor tail dt := by
  unfold SinhArcsinh.make at h
  rw [hdt] at h
  injection h with h
  subst h
  exact ⟨rfl, rfl, rfl, rfl⟩

/-- Witness for C7 at concrete inputs. -/
theorem sas_params_stored_unmutated_witness :
    SinhArcsinh.make ⟨3, none, []⟩ ⟨2, none, []⟩ (some ⟨0, none, []⟩) (some ⟨1, none, []⟩)
        (some (BaseDist.other [])) false true = some sampleSAS
    ∧ sampleSAS.loc = convert_nonref_to_tensor ⟨3, none, []⟩ Dtype.float32
    ∧ sampleSAS.scale = convert_nonref_to_tensor ⟨2, none, []⟩ Dtype.float32
    ∧ sampleSAS.skewness = convert_nonref_to_tensor ⟨0, none, []⟩ Dtype.float32
    ∧ sampleSAS.tailweight = convert_nonref_to_tensor ⟨1, none, []⟩ Dtype.float32 := by
  have h := sas_params_stored_unmutated ⟨3, none, []⟩ ⟨2, none, []⟩ ⟨0, none, []⟩
    ⟨1, none, []⟩ (some (BaseDist.other [])) false true sampleSAS Dtype.float32 rfl rfl
  exact ⟨rfl, h.1, h.2.1, h.2.2.1, h.2.2.2⟩

/-- C8: all four stored parameters carry the single common dtype computed at
construction, and that dtype defaults to `float32` when no argument carries a
dtype. -/
theorem sas_params_common_dtype
    (loc scale : ParamIn) (skew tail : Option ParamIn) (dist : Option BaseDist)
    (v a : Bool) (d : SinhArcsinh) (dt : Dtype)
    (hdt : common_dtype [loc.dtype, scale.dtype, Option.bind skew (fun p => p.dtype),
        Option.bind tail (fun p => p.dtype)] Dtype.float32 = some dt)
    (h : SinhArcsinh.make loc scale skew tail dist v a = some d) :
    (d.loc.dtype = dt ∧ d.scale.dtype = dt ∧ d.skewness.dtype = dt ∧ d.tailweight.dtype = dt)
    ∧ (loc.dtype = none → scale.dtype = none →
        Option.bind skew (fun p => p.dtype) = none →
        Option.bind tail (fun p => p.dtype) = none → dt = Dtype.float32) := by
  unfold SinhArcsinh.make at h
  rw [hdt] at h
  injection h with h
  subst h
  refine ⟨⟨rfl, rfl, rfl, rfl⟩, ?_⟩
  intro h1 h2 h3 h4
  rw [h1, h2, h3, h4] at hdt
  simpa [common_dtype] using hdt.symm

/-- Witness for C8: all arguments dtype-free, so the common dtype is
`float32`. -/
theorem sas_params_common_dtype_witness :
    SinhArcsinh.make ⟨3, none, []⟩ ⟨2, none, []⟩ (some ⟨0, none, []⟩) (some ⟨1, none, []⟩)
        (some (BaseDist.other [])) false true = some sampleSAS
    ∧ (sampleSAS.loc.dtype = Dtype.float32 ∧ sampleSAS.scale.dtype = Dtype.float32
        ∧ sampleSAS.skewness.dtype = Dtype.float32
        ∧ sampleSAS.tailweight.dtype = Dtype.float32)
    ∧ Dtype.float32 = Dtype.float32 := by
  have h := sas_params_common_dtype ⟨3, none, []⟩ ⟨2, none, []⟩ (some ⟨0, none, []⟩)
    (some ⟨1, none, []⟩) (some (BaseDist.other [])) false true sampleSAS Dtype.float32 rfl rfl
  exact ⟨rfl, h.1, h.2 rfl rfl rfl rfl⟩

/-- C9: for every constructed distribution the default event-space bijector
is `Identity(validate_args=self.validate_args)`, whose forward map is the
identity on the whole real line — no constraining transform. -/
theorem sas_default_event_space_identity (d : SinhArcsinh) (x : ℝ) :
    d.defaultEventSpaceBijector = Bijector.identity d.validate_args
    ∧ d.defaultEventSpaceBijector.forward x = x :=
  ⟨rfl, rfl⟩

/-- C10: omitted (`None`) skewness becomes `0.` and omitted tailweight
becomes `1.`, converted to the common dtype, so a distribution built from
only `loc` and `scale` stores scalar skewness `0` and tailweight `1` of the
same dtype as `loc`. -/
theorem sas_none_defaults_skew_zero_tail_one
    (loc scale : ParamIn) (dist : Option BaseDist) (v a : Bool) (d : SinhArcsinh)
    (h : SinhArcsinh.make loc scale none none dist v a = some d) :
    d.skewness.val = 0 ∧ d.tailweight.val = 1
    ∧ d.skewness.shape = [] ∧ d.tailweight.shape = []
    ∧ d.skewness.dtype = d.loc.dtype ∧ d.tailweight.dtype = d.loc.dtype := by
  unfold SinhArcsinh.make at h
  cases hdt : common_dtype [loc.dtype, scale.dtype,
      Option.bind (none : Option ParamIn) (fun p => p.dtype),
      Option.bind (none : Option ParamIn) (fun p => p.dtype)] Dtype.float32 with
  | none => rw [hdt] at h; exact absurd h (by simp)
  | some dt =>
    rw [hdt] at h
    injection h with h
    subst h
    exact ⟨rfl, rfl, rfl, rfl, rfl, rfl⟩

/-- Witness for C10 at concrete inputs with both parameters omitted. -/
theorem sas_none_defaults_skew_zero_tail_one_witness :
    SinhArcsinh.make ⟨3, none, []⟩ ⟨2, none, []⟩ none none
        (some (BaseDist.other [])) false true = some sampleSAS
    ∧ sampleSAS.skewness.val = 0 ∧ sampleSAS.tailweight.val = 1
    ∧ sampleSAS.skewness.shape = [] ∧ sampleSAS.tailweight.shape = []
    ∧ sampleSAS.skewness.dtype = sampleSAS.loc.dtype
    ∧ sampleSAS.tailweight.dtype = sampleSAS.loc.dtype := by
  have h := sas_none_defaults_skew_zero_tail_one ⟨3, none, []⟩ ⟨2, none, []⟩
    (some (BaseDist.other [])) false true sampleSAS rfl
  exact ⟨rfl, h⟩
